import Mathlib

/-!
Verification of the privilege consolidation and comparison engine of
`snowflake_rbac_manager.py` (class `SnowflakeRBACManager`), shallowly
embedded in Lean.

The embedding follows the Python source closely:

* `RawRow` is one row produced by the `GRANTS_TO_ROLES` /
  `GRANTS_TO_USERS` query: the five selected columns
  `privilege_type, object_type, object_name, database_name, schema_name`
  (the last two are nullable, hence `Option String`).
* `consolidate_privileges` mirrors the pandas pipeline of the method with
  the same name.  The external count query
  (`SELECT COUNT(*) FROM {db}.INFORMATION_SCHEMA.{obj_type}S WHERE
  SCHEMA_NAME = {schema}`) is abstracted as a function parameter
  `count : String → String → String → Nat` (database, schema, object type).
  Pandas semantics that matter and are reproduced here:
  - `pd.DataFrame([])` has no columns, so `df.groupby([...])` raises
    `KeyError` on the empty input; the embedding returns `Except.error`.
  - `df.groupby` on the three key columns drops
    every row whose key contains a null (the `dropna=True` default) and
    iterates the remaining groups in sorted key order.
  - `.unique()` keeps first occurrences; `.tolist()` keeps duplicates and
    original row order.
* `compare_privileges` mirrors the set algebra of lines 138-148 of the
  method with the same name, including the `p.get` with default "OBJECT"
  default, on already-fetched record lists.
* `create_functional_roles` mirrors the method with the same name; the
  external titan constructors `Role`, `Warehouse`, `Grant`, `Blueprint`
  are modelled as inert value constructors that store their arguments.
-/

/-- One raw grant row as selected by the fetch queries:
`PRIVILEGE as privilege_type, GRANTED_ON as object_type, NAME as
object_name, DATABASE_NAME, SCHEMA_NAME`. -/
structure RawRow where
  privilege_type : String
  object_type : String
  object_name : String
  database_name : Option String
  schema_name : Option String
deriving DecidableEq, Repr

/-- One consolidated output record, the dict appended by
`consolidate_privileges`: keys `privilege`, `granted_on`, `object_name`,
`scope`. -/
structure ConsRecord where
  privilege : String
  granted_on : String
  object_name : String
  scope : String
deriving DecidableEq, Repr

/-- The external count collaborator: database → schema → object type →
total number of objects of that type in the schema (the `COUNT(*)`
query result). -/
def CountFn : Type := String → String → String → Nat

/-- The grouping key of `df.groupby` on the three key columns for a row both of whose nullable key columns are
present; pandas drops the row from the grouping otherwise
(`dropna=True` default). -/
def rowKey (r : RawRow) : Option (String × String × String) :=
  match r.database_name, r.schema_name with
  | some d, some s => some (d, s, r.privilege_type)
  | _, _ => none

/-- Lexicographic order on grouping keys, matching the sorted group
iteration order of pandas `groupby` (`sort=True` default). -/
def keyLe (a b : String × String × String) : Bool :=
  if a.1 ≠ b.1 then decide (a.1 < b.1)
  else if a.2.1 ≠ b.2.1 then decide (a.2.1 < b.2.1)
  else decide (a.2.2 ≤ b.2.2)

/-- Insertion step of the key sort. -/
def insertKey (k : String × String × String) :
    List (String × String × String) → List (String × String × String)
  | [] => [k]
  | x :: xs => if keyLe k x then k :: x :: xs else x :: insertKey k xs

/-- Insertion sort of grouping keys. -/
def sortKeys (l : List (String × String × String)) :
    List (String × String × String) :=
  l.foldr insertKey []

/-- The distinct grouping keys of the input rows, in sorted order; rows
with a null `database_name` or `schema_name` contribute no key. -/
def keysOf (rows : List RawRow) : List (String × String × String) :=
  sortKeys ((rows.filterMap rowKey).eraseDups)

/-- The rows of one `groupby` group: the rows whose key columns equal the
group key, in original order. -/
def groupOf (rows : List RawRow) (d s priv : String) : List RawRow :=
  rows.filter fun r =>
    r.database_name == some d && r.schema_name == some s
      && r.privilege_type == priv

/-- the `tolist` of the object_name column of the object-type slice of the group:
the object names of the group rows of one object type, duplicates and
order preserved. -/
def typeObjectsOf (rows : List RawRow) (d s priv otype : String) :
    List String :=
  ((groupOf rows d s priv).filter fun r => r.object_type == otype).map
    (fun r => r.object_name)

/-- The records emitted for one (database, schema, privilege, object
type) partition: the single collapsed SCHEMA record when the granted
name list has exactly `count d s otype` entries, else one OBJECT record
per granted name. -/
def emitForType (count : CountFn) (d s priv otype : String)
    (typeObjects : List String) : List ConsRecord :=
  if typeObjects.length = count d s otype then
    [⟨priv, "ALL " ++ otype ++ "S", d ++ "." ++ s, "SCHEMA"⟩]
  else
    typeObjects.map fun obj => ⟨priv, otype, obj, "OBJECT"⟩

/-- The records emitted for one `groupby` group: the object types of the group
in first-occurrence order (`.unique()`), each handled by
`emitForType`. -/
def emitGroup (count : CountFn) (rows : List RawRow)
    (k : String × String × String) : List ConsRecord :=
  (((groupOf rows k.1 k.2.1 k.2.2).map (fun r => r.object_type)).eraseDups).flatMap
    fun otype =>
      emitForType count k.1 k.2.1 k.2.2 otype
        (typeObjectsOf rows k.1 k.2.1 k.2.2 otype)

/-- The grouping-and-emission stage of `consolidate_privileges`, i.e.
everything after the DataFrame has been built (so it is meaningful on
any row list, empty included). -/
def consolidateCore (count : CountFn) (rows : List RawRow) :
    List ConsRecord :=
  (keysOf rows).flatMap (emitGroup count rows)

/-- `consolidate_privileges(self, privileges)`.  On the empty input
`pd.DataFrame([])` has no columns, so
`df.groupby` on the key columns raises a KeyError;
this is modelled as `Except.error`.  On a non-empty input every row has
all five columns and the pipeline runs. -/
def consolidate_privileges (count : CountFn) (privileges : List RawRow) :
    Except String (List ConsRecord) :=
  if privileges.isEmpty then Except.error "KeyError: database_name"
  else Except.ok (consolidateCore count privileges)

/-- Whether a row has both grouping key columns present; pandas
`groupby` keeps exactly these rows (`dropna=True` default). -/
def hasGroupKey (r : RawRow) : Bool :=
  r.database_name.isSome && r.schema_name.isSome

/-- One already-consolidated record as consumed by the comparison code:
the `scope` key may be absent (`p.get` with default "OBJECT"), hence
`Option String`. -/
structure PrivRecord where
  privilege : String
  granted_on : String
  object_name : String
  scope : Option String
deriving DecidableEq, Repr

/-- The comparison tuple built from the four record fields, with "OBJECT" substituted for an absent scope. -/
def privTuple (p : PrivRecord) : String × String × String × String :=
  (p.privilege, p.granted_on, p.object_name, p.scope.getD "OBJECT")

/-- The Python set comprehension building `priv_set1` / `priv_set2`:
the set of comparison tuples of a record list. -/
def privSet (ps : List PrivRecord) :
    Finset (String × String × String × String) :=
  (ps.map privTuple).toFinset

/-- The dict returned by `compare_privileges`: keys `unique_to_first`,
`unique_to_second`, `common`. -/
structure ComparisonResult where
  unique_to_first : Finset (String × String × String × String)
  unique_to_second : Finset (String × String × String × String)
  common : Finset (String × String × String × String)
deriving DecidableEq

/-- Lines 138-148 of `compare_privileges`: the pure comparison of two
already-fetched consolidated record lists. -/
def compare_privileges (privileges1 privileges2 : List PrivRecord) :
    ComparisonResult :=
  let priv_set1 := privSet privileges1
  let priv_set2 := privSet privileges2
  ⟨priv_set1 \ priv_set2, priv_set2 \ priv_set1, priv_set1 ∩ priv_set2⟩

/-- Replaces an absent scope by `"OBJECT"` and leaves a present scope
unchanged. -/
def fillScope (p : PrivRecord) : PrivRecord :=
  match p.scope with
  | none => { p with scope := some "OBJECT" }
  | some _ => p

/-- A titan resource descriptor as constructed by
`create_functional_roles`: `Role(name=...)`,
`Warehouse(name=..., warehouse_size=..., auto_suspend=...)`, or
`Grant(priv=..., to=..., on=...)` (the grant stores the resources it
binds). -/
inductive Resource where
  | role (name : String)
  | warehouse (name : String) (warehouse_size : String) (auto_suspend : Nat)
  | grant (priv : String) (to_r on_r : Resource)
deriving DecidableEq, Repr

/-- Whether a resource is a role descriptor. -/
def Resource.isRole : Resource → Bool
  | .role _ => true
  | _ => false

/-- Whether a resource is a warehouse descriptor. -/
def Resource.isWarehouse : Resource → Bool
  | .warehouse _ _ _ => true
  | _ => false

/-- Whether a resource is a grant descriptor. -/
def Resource.isGrant : Resource → Bool
  | .grant _ _ _ => true
  | _ => false

/-- `Blueprint(resources=[...])`. -/
structure Blueprint where
  resources : List Resource
deriving DecidableEq, Repr

/-- `create_functional_roles(self, base_role_name)`: the three roles,
the warehouse, and the three usage grants, bundled as
`Blueprint(resources=[*roles, warehouse, *grants])`.  The method
performs no input validation. -/
def create_functional_roles (base_role_name : String) : Blueprint :=
  let roles : List Resource :=
    [Resource.role (base_role_name ++ "_full"),
     Resource.role (base_role_name ++ "_read"),
     Resource.role (base_role_name ++ "_write")]
  let warehouse : Resource :=
    Resource.warehouse (base_role_name ++ "_wh") "x-small" 60
  let grants : List Resource :=
    [Resource.grant "usage" (Resource.role (base_role_name ++ "_full")) warehouse,
     Resource.grant "usage" (Resource.role (base_role_name ++ "_read")) warehouse,
     Resource.grant "usage" (Resource.role (base_role_name ++ "_write")) warehouse]
  ⟨roles ++ [warehouse] ++ grants⟩

/-- Helper: filling in an absent scope does not change the comparison
tuple of a record. -/
theorem privTuple_fillScope (p : PrivRecord) :
    privTuple (fillScope p) = privTuple p := by
  rcases p with ⟨a, b, c, sc⟩
  cases sc <;> rfl

/-- Helper: filling in absent scopes does not change the tuple list. -/
theorem map_privTuple_fillScope (ps : List PrivRecord) :
    (ps.map fillScope).map privTuple = ps.map privTuple := by
  induction ps with
  | nil => rfl
  | cons p l ih => simp [ih, privTuple_fillScope]

/-- Helper: filling in absent scopes does not change the tuple set. -/
theorem privSet_map_fillScope (ps : List PrivRecord) :
    privSet (ps.map fillScope) = privSet ps := by
  unfold privSet
  rw [map_privTuple_fillScope]

/-- C3: the three sets returned by the comparison are pairwise disjoint,
`unique_to_first ∪ common` is the tuple set of the first input, and
`unique_to_second ∪ common` is the tuple set of the second input. -/
theorem compare_partition_properties (privileges1 privileges2 : List PrivRecord) :
    Disjoint (compare_privileges privileges1 privileges2).unique_to_first
      (compare_privileges privileges1 privileges2).unique_to_second ∧
    Disjoint (compare_privileges privileges1 privileges2).unique_to_first
      (compare_privileges privileges1 privileges2).common ∧
    Disjoint (compare_privileges privileges1 privileges2).unique_to_second
      (compare_privileges privileges1 privileges2).common ∧
    (compare_privileges privileges1 privileges2).unique_to_first ∪
      (compare_privileges privileges1 privileges2).common = privSet privileges1 ∧
    (compare_privileges privileges1 privileges2).unique_to_second ∪
      (compare_privileges privileges1 privileges2).common = privSet privileges2 := by
  refine ⟨?_, ?_, ?_, ?_, ?_⟩
  · show Disjoint (privSet privileges1 \ privSet privileges2)
      (privSet privileges2 \ privSet privileges1)
    exact disjoint_sdiff_sdiff
  · show Disjoint (privSet privileges1 \ privSet privileges2)
      (privSet privileges1 ∩ privSet privileges2)
    exact Finset.disjoint_sdiff_inter _ _
  · show Disjoint (privSet privileges2 \ privSet privileges1)
      (privSet privileges1 ∩ privSet privileges2)
    rw [Finset.inter_comm]
    exact Finset.disjoint_sdiff_inter _ _
  · show privSet privileges1 \ privSet privileges2 ∪
      privSet privileges1 ∩ privSet privileges2 = privSet privileges1
    exact Finset.sdiff_union_inter _ _
  · show privSet privileges2 \ privSet privileges1 ∪
      privSet privileges1 ∩ privSet privileges2 = privSet privileges2
    rw [Finset.inter_comm]
    exact Finset.sdiff_union_inter _ _

/-- C8: comparing a record list against itself yields empty unique sets
and a common set equal to the tuple set of the input. -/
theorem compare_self (ps : List PrivRecord) :
    (compare_privileges ps ps).unique_to_first = ∅ ∧
    (compare_privileges ps ps).unique_to_second = ∅ ∧
    (compare_privileges ps ps).common = privSet ps := by
  refine ⟨?_, ?_, ?_⟩
  · show privSet ps \ privSet ps = ∅
    exact Finset.sdiff_self _
  · show privSet ps \ privSet ps = ∅
    exact Finset.sdiff_self _
  · show privSet ps ∩ privSet ps = privSet ps
    exact Finset.inter_self _

/-- C9: swapping the two inputs swaps `unique_to_first` with
`unique_to_second` and leaves `common` unchanged. -/
theorem compare_swap (ps1 ps2 : List PrivRecord) :
    (compare_privileges ps1 ps2).unique_to_first =
      (compare_privileges ps2 ps1).unique_to_second ∧
    (compare_privileges ps1 ps2).common = (compare_privileges ps2 ps1).common := by
  constructor
  · rfl
  · show privSet ps1 ∩ privSet ps2 = privSet ps2 ∩ privSet ps1
    exact Finset.inter_comm _ _

/-- C10: replacing every record that lacks a scope by the same record
with scope "OBJECT" leaves the comparison result unchanged. -/
theorem compare_default_scope (ps1 ps2 : List PrivRecord) :
    compare_privileges (ps1.map fillScope) (ps2.map fillScope) =
      compare_privileges ps1 ps2 := by
  simp only [compare_privileges, privSet_map_fillScope]

/-- C1 (amended): within a non-empty (database, schema, privilege,
object type) partition, the single collapsed SCHEMA record is emitted
exactly when the LENGTH of the granted-name list (duplicates counted)
equals the external object count — the code compares `len` of a
`tolist`, not the cardinality of the set of names — and a zero count
always yields per-row OBJECT records. -/
theorem consolidate_collapse_iff_row_count (count : CountFn)
    (rows : List RawRow) (d s priv otype : String)
    (h : typeObjectsOf rows d s priv otype ≠ []) :
    (emitForType count d s priv otype (typeObjectsOf rows d s priv otype) =
        [⟨priv, "ALL " ++ otype ++ "S", d ++ "." ++ s, "SCHEMA"⟩] ↔
      (typeObjectsOf rows d s priv otype).length = count d s otype) ∧
    (count d s otype = 0 →
      emitForType count d s priv otype (typeObjectsOf rows d s priv otype) =
        (typeObjectsOf rows d s priv otype).map
          fun obj => ⟨priv, otype, obj, "OBJECT"⟩) := by
  by_cases hc : (typeObjectsOf rows d s priv otype).length = count d s otype
  · refine ⟨⟨fun _ => hc, fun _ => ?_⟩, fun h0 => ?_⟩
    · rw [emitForType, if_pos hc]
    · exfalso
      apply h
      rw [← List.length_eq_zero]
      omega
  · refine ⟨⟨fun heq => ?_, fun hlen => absurd hlen hc⟩, fun _ => ?_⟩
    · exfalso
      rw [emitForType, if_neg hc] at heq
      cases hts : typeObjectsOf rows d s priv otype with
      | nil => exact h hts
      | cons a l =>
        rw [hts] at heq
        simp only [List.map_cons, List.cons.injEq] at heq
        have hscope : ("OBJECT" : String) = "SCHEMA" :=
          congrArg ConsRecord.scope heq.1
        exact absurd hscope (by decide)
    · rw [emitForType, if_neg hc]

/-- C1 witness: a one-row partition with a matching count of one, at
which the collapse condition of `consolidate_collapse_iff_row_count`
holds concretely. -/
theorem consolidate_collapse_iff_row_count_witness :
    (emitForType (fun _ _ _ => 1) "D" "S" "SELECT" "TABLE"
        (typeObjectsOf [⟨"SELECT", "TABLE", "T1", some "D", some "S"⟩]
          "D" "S" "SELECT" "TABLE") =
        [⟨"SELECT", "ALL " ++ "TABLE" ++ "S", "D" ++ "." ++ "S", "SCHEMA"⟩] ↔
      (typeObjectsOf [⟨"SELECT", "TABLE", "T1", some "D", some "S"⟩]
          "D" "S" "SELECT" "TABLE").length = 1) ∧
    ((1 : Nat) = 0 →
      emitForType (fun _ _ _ => 1) "D" "S" "SELECT" "TABLE"
        (typeObjectsOf [⟨"SELECT", "TABLE", "T1", some "D", some "S"⟩]
          "D" "S" "SELECT" "TABLE") =
        (typeObjectsOf [⟨"SELECT", "TABLE", "T1", some "D", some "S"⟩]
          "D" "S" "SELECT" "TABLE").map
          fun obj => ⟨"SELECT", "TABLE", obj, "OBJECT"⟩) :=
  consolidate_collapse_iff_row_count (fun _ _ _ => 1)
    [⟨"SELECT", "TABLE", "T1", some "D", some "S"⟩]
    "D" "S" "SELECT" "TABLE" (by decide)

/-- C1 counterexample: two duplicate rows granting SELECT on the same
table T1, with two tables in the schema.  The set of granted names is
the singleton with member T1 (its deduplicated list is just T1), yet the
code collapses to the schema-level ALL TABLES record, because it
compares the length of the duplicate-preserving list (2) with the total
count (2). -/
theorem consolidate_duplicate_names_collapse :
    consolidate_privileges (fun _ _ _ => 2)
      [⟨"SELECT", "TABLE", "T1", some "D", some "S"⟩,
       ⟨"SELECT", "TABLE", "T1", some "D", some "S"⟩] =
      Except.ok [⟨"SELECT", "ALL TABLES", "D.S", "SCHEMA"⟩] ∧
    ([⟨"SELECT", "TABLE", "T1", some "D", some "S"⟩,
      (⟨"SELECT", "TABLE", "T1", some "D", some "S"⟩ : RawRow)].map
        RawRow.object_name).eraseDups = ["T1"] := by
  constructor <;> rfl

/-- C2: each (database, schema, privilege, object type) partition emits
either exactly the one collapsed SCHEMA record or only OBJECT-scope
records — never a mixture. -/
theorem consolidate_schema_object_exclusive (count : CountFn)
    (rows : List RawRow) (d s priv otype : String) :
    emitForType count d s priv otype (typeObjectsOf rows d s priv otype) =
      [⟨priv, "ALL " ++ otype ++ "S", d ++ "." ++ s, "SCHEMA"⟩] ∨
    ∀ r ∈ emitForType count d s priv otype (typeObjectsOf rows d s priv otype),
      r.scope = "OBJECT" := by
  by_cases hc : (typeObjectsOf rows d s priv otype).length = count d s otype
  · left
    rw [emitForType, if_pos hc]
  · right
    intro r hr
    rw [emitForType, if_neg hc] at hr
    simp only [List.mem_map] at hr
    obtain ⟨a, _, ha⟩ := hr
    rw [← ha]

/-- C5: on the empty input the consolidation raises (pandas KeyError on
the missing grouping columns of an empty DataFrame) instead of
returning an empty list. -/
theorem consolidate_empty_input_errors (count : CountFn) :
    consolidate_privileges count [] =
      Except.error "KeyError: database_name" := rfl

/-- Helper: a row lacking a key column yields no grouping key. -/
theorem rowKey_eq_none_of_not_hasGroupKey (r : RawRow)
    (h : ¬ hasGroupKey r = true) : rowKey r = none := by
  unfold hasGroupKey at h
  unfold rowKey
  cases hd : r.database_name <;> cases hs : r.schema_name <;>
    simp [hd, hs] at h ⊢

/-- Helper: dropping the rows without a full grouping key does not
change the extracted key list. -/
theorem filterMap_rowKey_filter (rows : List RawRow) :
    (rows.filter hasGroupKey).filterMap rowKey = rows.filterMap rowKey := by
  induction rows with
  | nil => rfl
  | cons r l ih =>
    by_cases hg : hasGroupKey r = true
    · rw [List.filter_cons_of_pos hg, List.filterMap_cons, List.filterMap_cons, ih]
    · rw [List.filter_cons_of_neg hg, List.filterMap_cons,
        rowKey_eq_none_of_not_hasGroupKey r hg, ih]

/-- Helper: dropping the rows without a full grouping key does not
change the sorted distinct key list. -/
theorem keysOf_filter (rows : List RawRow) :
    keysOf (rows.filter hasGroupKey) = keysOf rows := by
  unfold keysOf
  rw [filterMap_rowKey_filter]

/-- Helper: every group of the grouping is unchanged by dropping the
rows without a full grouping key, because such rows match no group. -/
theorem groupOf_filter (rows : List RawRow) (d s priv : String) :
    groupOf (rows.filter hasGroupKey) d s priv = groupOf rows d s priv := by
  unfold groupOf
  induction rows with
  | nil => rfl
  | cons r l ih =>
    by_cases hm : (r.database_name == some d && r.schema_name == some s
        && r.privilege_type == priv) = true
    · have hg : hasGroupKey r = true := by
        unfold hasGroupKey
        cases hd : r.database_name <;> cases hs : r.schema_name <;>
          simp [hd, hs] at hm ⊢
      simp only [List.filter_cons, hg, if_true, hm, ih]
    · by_cases hg : hasGroupKey r = true
      · simp [List.filter_cons, hg, hm, ih]
      · simp [List.filter_cons, hg, hm, ih]

/-- Helper: the granted-name list of a partition is unchanged by
dropping the rows without a full grouping key. -/
theorem typeObjectsOf_filter (rows : List RawRow) (d s priv otype : String) :
    typeObjectsOf (rows.filter hasGroupKey) d s priv otype =
      typeObjectsOf rows d s priv otype := by
  unfold typeObjectsOf
  rw [groupOf_filter]

/-- Helper: the emission of a group is unchanged by dropping the rows
without a full grouping key. -/
theorem emitGroup_filter (count : CountFn) (rows : List RawRow)
    (k : String × String × String) :
    emitGroup count (rows.filter hasGroupKey) k = emitGroup count rows k := by
  unfold emitGroup
  rw [groupOf_filter]
  congr 1
  funext otype
  rw [typeObjectsOf_filter]

/-- C4 (amended): the grouping stage of consolidation drops every row
whose database_name or schema_name is null — its output on any row list
equals its output on the sublist of rows having both key columns. -/
theorem consolidateCore_drops_null_key_rows (count : CountFn)
    (rows : List RawRow) :
    consolidateCore count rows =
      consolidateCore count (rows.filter hasGroupKey) := by
  unfold consolidateCore
  rw [keysOf_filter]
  congr 1
  funext k
  rw [emitGroup_filter]

/-- C4 counterexample: a single account-level grant row with null
database and schema.  The claim says it is grouped on its own and still
produces consolidated records; the code (pandas groupby with the
dropna default) drops it, and the consolidated output is empty. -/
theorem consolidate_null_key_row_dropped :
    consolidate_privileges (fun _ _ _ => 1)
      [⟨"USAGE", "WAREHOUSE", "MY_WH", none, none⟩] = Except.ok [] := rfl

/-- C6 counterexample: the builder performs no validation at all — on
the empty base name it succeeds and returns the full bundle (roles
_full, _read, _write, warehouse _wh, three usage grants) instead of
failing; the empty-name guard lives in the UI caller, not here. -/
theorem create_functional_roles_empty_base_succeeds :
    create_functional_roles "" =
      ⟨[Resource.role "_full", Resource.role "_read", Resource.role "_write",
        Resource.warehouse "_wh" "x-small" 60,
        Resource.grant "usage" (Resource.role "_full")
          (Resource.warehouse "_wh" "x-small" 60),
        Resource.grant "usage" (Resource.role "_read")
          (Resource.warehouse "_wh" "x-small" 60),
        Resource.grant "usage" (Resource.role "_write")
          (Resource.warehouse "_wh" "x-small" 60)]⟩ := rfl

/-- C6 (amended): the builder has no error condition whatsoever — for
every base name, the empty string included, it succeeds and returns a
bundle of exactly three roles, one warehouse and three grants. -/
theorem create_functional_roles_never_fails (base_role_name : String) :
    ((create_functional_roles base_role_name).resources.filter
      Resource.isRole).length = 3 ∧
    ((create_functional_roles base_role_name).resources.filter
      Resource.isWarehouse).length = 1 ∧
    ((create_functional_roles base_role_name).resources.filter
      Resource.isGrant).length = 3 :=
  ⟨rfl, rfl, rfl⟩

/-- C7: building for base name "team" yields exactly the three roles
team_full, team_read, team_write, exactly the one warehouse team_wh of
size "x-small" with auto-suspend 60, and exactly three usage grants,
one binding each role to that warehouse. -/
theorem create_functional_roles_team :
    (create_functional_roles "team").resources.filter Resource.isRole =
      [Resource.role "team_full", Resource.role "team_read",
       Resource.role "team_write"] ∧
    (create_functional_roles "team").resources.filter Resource.isWarehouse =
      [Resource.warehouse "team_wh" "x-small" 60] ∧
    (create_functional_roles "team").resources.filter Resource.isGrant =
      [Resource.grant "usage" (Resource.role "team_full")
        (Resource.warehouse "team_wh" "x-small" 60),
       Resource.grant "usage" (Resource.role "team_read")
        (Resource.warehouse "team_wh" "x-small" 60),
       Resource.grant "usage" (Resource.role "team_write")
        (Resource.warehouse "team_wh" "x-small" 60)] :=
  ⟨rfl, rfl, rfl⟩
